import Mathlib

/-
Verification of the tug-hill-grantmaker pipeline.

Shallow embedding of the reconciliation / scoring / classification
pipeline:
  - src/src/database.py   : schema and the vw_tract_profile reporting view
  - src/src/etl.py        : fetch_regional_tracts, fetch_acs_demographics,
                            load_svi_data, run_etl
  - src/utils/simulation.py : the simulation-variant pipeline

Numeric modelling: SQLite REAL values and Python floats are modelled as
rationals (ℚ); Python ints as ℤ/ℕ.  External HTTP/JSON responses are
modelled as already-decoded values (an Option wraps each network call:
none models a network or JSON-decoding failure, which the source catches
and turns into an empty result).  Randomness (random.choices /
random.choice) is modelled by a seed-indexed selection from the same
candidate population, so that every result the model can produce is a
member of the population list passed in the source.
-/

/- ---------------------------------------------------------------
   ProfileAggregator: the CASE expression of the reporting view
   vw_tract_profile (src/src/database.py lines 58-63).
   --------------------------------------------------------------- -/

/-- The CASE expression of vw_tract_profile: the derived category tag as a
function of the row's overall_svi and its COUNT(DISTINCT asset_id). -/
def context_tag (overall_svi : ℚ) (count_assets : ℕ) : String :=
  if overall_svi > 0.75 ∧ count_assets < 2 then "Urgent Desert"
  else if overall_svi > 0.75 ∧ count_assets ≥ 4 then "High-Capacity Hub"
  else if overall_svi < 0.25 then "Stable / Low Need"
  else "General Opportunity"

/-- Modelled from the spec (section 4.6): the ordered four-rule table, as a
list of (guard, label) rules; rule 4 ("otherwise") is the default. -/
def specCategoryRules : List ((ℚ × ℕ → Bool) × String) :=
  [(fun p => decide (p.1 > 0.75) && decide (p.2 < 2), "Urgent Desert"),
   (fun p => decide (p.1 > 0.75) && decide (p.2 ≥ 4), "High-Capacity Hub"),
   (fun p => decide (p.1 < 0.25), "Stable / Low Need")]

/-- Modelled from the spec (section 4.6): first-match-wins evaluation of an
ordered rule table, falling through to "General Opportunity". -/
def firstMatchCategory : List ((ℚ × ℕ → Bool) × String) → (ℚ × ℕ) → String
  | [], _ => "General Opportunity"
  | r :: rest, p => if r.1 p then r.2 else firstMatchCategory rest p

/- ---------------------------------------------------------------
   Shared association-list helpers, modelling Python dict access:
   d[k] = v (overwrite) and d.get(k).
   --------------------------------------------------------------- -/

/-- Python dict lookup d.get(k): the binding for k, if any. -/
def lookupKey {α : Type} : List (String × α) → String → Option α
  | [], _ => none
  | p :: rest, k => if p.1 = k then some p.2 else lookupKey rest k

/-- Python dict assignment d[k] = v: bind k to v, overwriting any prior
binding for k. -/
def setKey {α : Type} (m : List (String × α)) (k : String) (v : α) :
    List (String × α) :=
  (k, v) :: m.filter (fun p => ¬ (p.1 = k))

/- ---------------------------------------------------------------
   GeographyFetcher: fetch_regional_tracts (src/src/etl.py lines 29-57).
   The decoded service response is a list of features; none models a
   network or JSON failure (the except branch returns []).
   --------------------------------------------------------------- -/

/-- One feature of the decoded TIGERweb geojson response: its properties
GEOID and NAME (absent keys give None via props.get) and its serialized
geometry. -/
structure GeoFeature where
  GEOID : Option String
  NAME : Option String
  geometry : String
deriving Repr, DecidableEq

/-- A geography unit accepted by fetch_regional_tracts. -/
structure Tract where
  geoid : String
  name : Option String
  geometry : String
deriving Repr, DecidableEq

/-- The per-feature acceptance test of fetch_regional_tracts: keep the
feature only when its GEOID is truthy (present and nonempty) and has
length exactly 11. -/
def toTract (f : GeoFeature) : Option Tract :=
  match f.GEOID with
  | some geoid =>
      if geoid ≠ "" ∧ geoid.length = 11 then
        some { geoid := geoid, name := f.NAME, geometry := f.geometry }
      else none
  | none => none

/-- fetch_regional_tracts: filter the response's features by the strict
11-character tract check; a failed request (none) yields []. -/
def fetch_regional_tracts (resp : Option (List GeoFeature)) : List Tract :=
  match resp with
  | none => []
  | some feats => feats.filterMap toTract

/- ---------------------------------------------------------------
   VulnerabilityLoader: load_svi_data (src/src/etl.py lines 93-130).
   CSV cells are read with dtype=str; float(cell) either fails (asFloat
   none) or yields a rational.
   --------------------------------------------------------------- -/

/-- One CSV/ACS cell: its raw string form, and the results of int() and
float() applied to it (none = the Python call raises). -/
structure Cell where
  raw : String
  asInt : Option ℤ
  asFloat : Option ℚ
deriving Repr, DecidableEq

/-- A decoded tabular file: column names and rows of cells, positionally
aligned with the columns. -/
structure Csv where
  columns : List String
  rows : List (List Cell)
deriving Repr, DecidableEq

/-- The case-insensitive alias list for the identifier column. -/
def FIPS_ALIASES : List String := ["FIPS", "GEOID", "STCOFIPS"]

/-- The case-insensitive alias list for the overall-score column. -/
def SVI_ALIASES : List String := ["RPL_THEMES", "SVI", "RPL_THEMES_OVERALL"]

/-- Python str.upper(): upper-case every character. -/
def pyUpper (s : String) : String := String.mk (s.data.map Char.toUpper)

/-- next((c for c in df.columns if c.upper() in aliases), None): the first
column whose upper-cased name is in the alias list. -/
def findCol (columns : List String) (aliases : List String) : Option String :=
  columns.find? (fun c => aliases.contains (pyUpper c))

/-- row[col]: the cell of the row in the named column. -/
def cellLookup : List String → List Cell → String → Option Cell
  | c :: cs, x :: xs, col => if c = col then some x else cellLookup cs xs col
  | _, _, _ => none

/-- The body of the loader's row loop: fips = str(row[fips_col]);
val = float(row[svi_col]) (a parse failure skips the row); keep the row
only when 0 <= val <= 1 (filtering out the -999 missing-data code). -/
def rowEntry (columns : List String) (fc sc : String) (row : List Cell) :
    Option (String × ℚ) :=
  match cellLookup columns row fc, cellLookup columns row sc with
  | some fcell, some scell =>
      match scell.asFloat with
      | some val => if 0 ≤ val ∧ val ≤ 1 then some (fcell.raw, val) else none
      | none => none
  | _, _ => none

/-- The loader's row loop: build svi_map by iterating the rows. -/
def sviFold (columns : List String) (fc sc : String) :
    List (List Cell) → List (String × ℚ) → List (String × ℚ)
  | [], m => m
  | row :: rest, m =>
      match rowEntry columns fc sc row with
      | some kv => sviFold columns fc sc rest (setKey m kv.1 kv.2)
      | none => sviFold columns fc sc rest m

/-- The loader's result: whether a warning was reported, and the mapping. -/
structure LoadResult where
  warned : Bool
  svi_map : List (String × ℚ)
deriving Repr, DecidableEq

/-- load_svi_data: none models a failed CSV read (the outer except branch);
if either required column cannot be located the loader warns and returns
an empty mapping; otherwise it folds the rows into the mapping. -/
def load_svi_data (source : Option Csv) : LoadResult :=
  match source with
  | none => { warned := true, svi_map := [] }
  | some csv =>
      match findCol csv.columns FIPS_ALIASES, findCol csv.columns SVI_ALIASES with
      | some fc, some sc =>
          { warned := false, svi_map := sviFold csv.columns fc sc csv.rows [] }
      | _, _ => { warned := true, svi_map := [] }

/-- The merge step's score assignment (src/src/etl.py line 147):
svi = svi_map.get(tid, 0.5). -/
def merge_svi (svi_map : List (String × ℚ)) (tid : String) : ℚ :=
  match lookupKey svi_map tid with
  | some v => v
  | none => 0.5

/- ---------------------------------------------------------------
   DemographicsFetcher: fetch_acs_demographics
   (src/src/etl.py lines 59-91).
   --------------------------------------------------------------- -/

/-- The county codes of the three-county configuration
(src/src/etl.py line 24). -/
def COUNTIES : List String := ["045", "049", "089"]

/-- Python round-half-to-even of a rational to an integer. -/
def roundHalfEven (q : ℚ) : ℤ :=
  if q - ⌊q⌋ < 1/2 then ⌊q⌋
  else if q - ⌊q⌋ > 1/2 then ⌊q⌋ + 1
  else if 2 ∣ ⌊q⌋ then ⌊q⌋ else ⌊q⌋ + 1

/-- Python round(x, 1): round to one decimal place. -/
def round1 (q : ℚ) : ℚ := (roundHalfEven (q * 10) : ℚ) / 10

/-- The default cell an out-of-bounds row index yields. -/
def blankCell : Cell := { raw := "", asInt := none, asFloat := none }

/-- r[i] for a nonnegative Python index. -/
def pyIdx (r : List Cell) (i : ℕ) : Cell := r.getD i blankCell

/-- r[-k] for a negative Python index. -/
def pyIdxNeg (r : List Cell) (k : ℕ) : Cell := r.getD (r.length - k) blankCell

/-- int(x) if x else 0: empty/null gives 0, a non-numeric string raises
(error), otherwise the parsed integer. -/
def intOrZero (c : Cell) : Except Unit ℤ :=
  if c.raw = "" then Except.ok 0
  else match c.asInt with
    | some n => Except.ok n
    | none => Except.error ()

/-- float(x) if x else 0.0, with the same raising behavior. -/
def floatOrZero (c : Cell) : Except Unit ℚ :=
  if c.raw = "" then Except.ok 0
  else match c.asFloat with
    | some q => Except.ok q
    | none => Except.error ()

/-- The total-evaluated int(x or 0) value on a success path. -/
def intOrZeroD (c : Cell) : ℤ :=
  if c.raw = "" then 0 else c.asInt.getD 0

/-- The local helper pct(n) of fetch_acs_demographics:
round((int(n or 0)/total)*100, 1). -/
def pctE (total : ℤ) (c : Cell) : Except Unit ℚ :=
  match intOrZero c with
  | Except.error e => Except.error e
  | Except.ok n => Except.ok (round1 ((n : ℚ) / (total : ℚ) * 100))

/-- The demographics mapping key: geoid = r[-3] + r[-2] + r[-1]
(src/src/etl.py line 70). -/
def acsGeoid (r : List Cell) : String :=
  (pyIdxNeg r 3).raw ++ (pyIdxNeg r 2).raw ++ (pyIdxNeg r 1).raw

/-- A demographic profile as built by fetch_acs_demographics. -/
structure DemoProfile where
  total_pop : ℤ
  pct_under_18 : ℚ
  pct_senior : ℚ
  pct_white : ℚ
  pct_black : ℚ
  pct_hispanic : ℚ
  pct_uninsured : ℚ
  pct_broadband : ℚ
deriving Repr, DecidableEq

/-- The body of the fetch_acs_demographics row loop: skip rows of other
counties; total = int(r[0]) if r[0] else 0; skip rows with total == 0;
otherwise compute the percentage fields.  ok none = the row is skipped;
error = a parse raised (aborting the whole fetch). -/
def acsRowEntry (r : List Cell) : Except Unit (Option (String × DemoProfile)) :=
  if ¬ COUNTIES.contains (pyIdxNeg r 2).raw then Except.ok none
  else
    match intOrZero (pyIdx r 0) with
    | Except.error e => Except.error e
    | Except.ok total =>
        if total = 0 then Except.ok none
        else
          match pctE total (pyIdx r 1), pctE total (pyIdx r 2),
                pctE total (pyIdx r 3), pctE total (pyIdx r 4),
                pctE total (pyIdx r 5), floatOrZero (pyIdx r 6),
                floatOrZero (pyIdx r 7) with
          | Except.ok p1, Except.ok p2, Except.ok p3, Except.ok p4,
            Except.ok p5, Except.ok u, Except.ok b =>
              Except.ok (some (acsGeoid r,
                { total_pop := total, pct_under_18 := p1, pct_senior := p2,
                  pct_white := p3, pct_black := p4, pct_hispanic := p5,
                  pct_uninsured := u, pct_broadband := b }))
          | _, _, _, _, _, _, _ => Except.error ()

/-- The fetch_acs_demographics row loop over rows[1:], building the
mapping; the first raising row aborts (the except branch discards the
partial mapping). -/
def acsCollect :
    List (List Cell) → List (String × DemoProfile) →
      Except Unit (List (String × DemoProfile))
  | [], acc => Except.ok acc
  | r :: rest, acc =>
      match acsRowEntry r with
      | Except.error e => Except.error e
      | Except.ok none => acsCollect rest acc
      | Except.ok (some gp) => acsCollect rest (setKey acc gp.1 gp.2)

/-- fetch_acs_demographics: none models a failed request or JSON decode;
otherwise the header row is skipped and the rows are folded; any raise
inside the loop yields the empty mapping. -/
def fetch_acs_demographics (resp : Option (List (List Cell))) :
    List (String × DemoProfile) :=
  match resp with
  | none => []
  | some rows =>
      match acsCollect (rows.drop 1) [] with
      | Except.ok m => m
      | Except.error _ => []

/- ---------------------------------------------------------------
   RecordStore and the main rebuild: init_db / raw table schema
   (src/src/database.py lines 26-43) and run_etl
   (src/src/etl.py lines 132-174).
   --------------------------------------------------------------- -/

/-- A row of raw_tracts.  tract_id is the TEXT PRIMARY KEY; the
demographics_json blob serializes demos.get(tid, {}), modelled as an
optional profile (none = the empty dict default). -/
structure TractRow where
  tract_id : String
  name : String
  geometry : String
  overall_svi : ℚ
  housing_svi : ℚ
  poverty_rate : ℚ
  pop_density : ℚ
  demographics_json : Option DemoProfile
deriving Repr, DecidableEq

/-- A row of raw_assets.  asset_id is a fresh uuid4 per inserted asset,
modelled as the fresh pair (tract position, asset position) so that ids
never collide. -/
structure AssetRow where
  asset_id : ℕ × ℕ
  tract_id : String
  asset_type : String
deriving Repr, DecidableEq

/-- The persisted store: the raw_tracts and raw_assets tables, in insert
order.  reset_db leaves both empty. -/
structure Store where
  raw_tracts : List TractRow
  raw_assets : List AssetRow
deriving Repr, DecidableEq

/-- The store right after reset_db. -/
def emptyStore : Store := { raw_tracts := [], raw_assets := [] }

deriving instance DecidableEq for Except

/-- A plain INSERT INTO raw_tracts: tract_id is the PRIMARY KEY, so
inserting a duplicate key raises (sqlite3.IntegrityError) instead of
overwriting the stored row. -/
def insertTract (store : Store) (row : TractRow) : Except String Store :=
  if store.raw_tracts.any (fun r => r.tract_id = row.tract_id) then
    Except.error "UNIQUE constraint failed: raw_tracts.tract_id"
  else
    Except.ok { store with raw_tracts := store.raw_tracts ++ [row] }

/-- random.choices(population, weights, k=1)[0], modelled as seed-indexed
selection: whatever the weights, the result is a member of population
(a zero weight can only shrink the support further). -/
def random_choices (population : List ℕ) (seed : ℕ) : ℕ :=
  population.getD (seed % population.length) 0

/-- The asset-type vocabulary of run_etl (src/src/etl.py line 166). -/
def assets_types : List String := ["School", "Library", "Clinic", "Community Center"]

/-- The ambient randomness of run_etl: a seed for the per-tract
random.choices draw and a seed for each asset's random.choice of type. -/
structure EtlRng where
  assetSeed : ℕ → ℕ
  typeSeed : ℕ → ℕ → ℕ

/-- The asset rows inserted for one tract: num_assets rows, each with a
fresh uuid (modelled (idx, j)) and a drawn type. -/
def tractAssets (rng : EtlRng) (idx : ℕ) (tid : String) (num : ℕ) :
    List AssetRow :=
  (List.range num).map (fun j =>
    { asset_id := (idx, j), tract_id := tid,
      asset_type := assets_types.getD (rng.typeSeed idx j % assets_types.length) "School" })

/-- The per-tract raw_tracts row built by run_etl: svi from the merge
policy, demographics from demos.get(tid, {}), the remaining REAL columns
written as 0.0. -/
def mkRow (svi_map : List (String × ℚ)) (demos : List (String × DemoProfile))
    (t : Tract) : TractRow :=
  { tract_id := t.geoid,
    name := "Tract " ++ (match t.name with | some s => s | none => "None"),
    geometry := t.geometry,
    overall_svi := merge_svi svi_map t.geoid,
    housing_svi := 0, poverty_rate := 0, pop_density := 0,
    demographics_json := lookupKey demos t.geoid }

/-- The number of assets run_etl draws for the tract at position idx:
random.choices([0, 3], weights=[svi*5, (1-svi)*5], k=1)[0]. -/
def numAssetsAt (rng : EtlRng) (idx : ℕ) : ℕ :=
  random_choices [0, 3] (rng.assetSeed idx)

/-- The insert loop of run_etl over the fetched tracts: insert the tract
row (raising on a duplicate tract_id), then append the simulated asset
rows. -/
def run_etl_loop (svi_map : List (String × ℚ))
    (demos : List (String × DemoProfile)) (rng : EtlRng) :
    List Tract → ℕ → Store → Except String Store
  | [], _, store => Except.ok store
  | t :: rest, idx, store =>
      match insertTract store (mkRow svi_map demos t) with
      | Except.error e => Except.error e
      | Except.ok store1 =>
          run_etl_loop svi_map demos rng rest (idx + 1)
            { store1 with
              raw_assets := store1.raw_assets ++
                tractAssets rng idx t.geoid (numAssetsAt rng idx) }

/-- run_etl: reset the store, gather the three sources, and run the
insert loop over the geography fetch result. -/
def run_etl (geoResp : Option (List GeoFeature))
    (acsResp : Option (List (List Cell))) (sviCsv : Option Csv)
    (rng : EtlRng) : Except String Store :=
  run_etl_loop (load_svi_data sviCsv).svi_map (fetch_acs_demographics acsResp)
    rng (fetch_regional_tracts geoResp) 0 emptyStore

/-- The asset rows appended by the loop for a tract list starting at
position idx (used to describe a successful run's raw_assets). -/
def assetBlocks (rng : EtlRng) : ℕ → List Tract → List AssetRow
  | _, [] => []
  | idx, t :: rest =>
      tractAssets rng idx t.geoid (numAssetsAt rng idx) ++
        assetBlocks rng (idx + 1) rest

/-- COUNT(DISTINCT a.asset_id) of the view's LEFT JOIN, per tract: the
number of distinct asset ids among the asset rows owned by the tract
(0 when none). -/
def countAssets (assets : List AssetRow) (tid : String) : ℕ :=
  (((assets.filter (fun a => a.tract_id = tid)).map AssetRow.asset_id).dedup).length

/- ---------------------------------------------------------------
   The simulation-variant pipeline: fetch_real_tracts,
   load_svi_from_csv and run_simulation
   (src/utils/simulation.py lines 20-49, 89-113, 117-179).
   --------------------------------------------------------------- -/

/-- fetch_real_tracts (src/utils/simulation.py lines 20-49): the same
strict 11-character GEOID filter as fetch_regional_tracts. -/
def fetch_real_tracts (resp : Option (List GeoFeature)) : List Tract :=
  match resp with
  | none => []
  | some feats => feats.filterMap toTract

/-- Character-list substring test: sub occurs contiguously in the second
list. -/
def charContainsSub : List Char → List Char → Bool
  | sub, [] => sub.isEmpty
  | sub, x :: xs => sub.isPrefixOf (x :: xs) || charContainsSub sub xs

/-- Python sub in s: substring containment. -/
def pyContains (sub s : String) : Bool := charContainsSub sub.data s.data

/-- Python s.startswith(p). -/
def pyStartsWith (s p : String) : Bool := p.data.isPrefixOf s.data

/-- Python round(x, 2): round to two decimal places. -/
def round2 (q : ℚ) : ℚ := (roundHalfEven (q * 100) : ℚ) / 100

/-- The FIPS-column resolution of load_svi_from_csv: the literal column
'FIPS' when present, else the first column whose upper-cased name
contains 'GEO' or 'FIPS' (which the source renames to 'FIPS'). -/
def simFipsCol (columns : List String) : Option String :=
  if columns.contains "FIPS" then some "FIPS"
  else columns.find? (fun c =>
    pyContains "GEO" (pyUpper c) || pyContains "FIPS" (pyUpper c))

/-- The row fold of load_svi_from_csv's set_index('FIPS')['RPL_THEMES']
.to_dict(): every row's score value enters the mapping, with NO range
filtering (cells pandas could not parse as numbers are NaN and are
modelled as skipped). -/
def simSviFold (columns : List String) (fc : String) :
    List (List Cell) → List (String × ℚ) → List (String × ℚ)
  | [], m => m
  | row :: rest, m =>
      match cellLookup columns row fc, cellLookup columns row "RPL_THEMES" with
      | some fcell, some scell =>
          match scell.asFloat with
          | some val => simSviFold columns fc rest (setKey m fcell.raw val)
          | none => simSviFold columns fc rest m
      | _, _ => simSviFold columns fc rest m

/-- load_svi_from_csv (src/utils/simulation.py lines 89-113): resolve the
FIPS column (possibly by rename), build {fips: rpl_themes} over all rows
without any value filtering; any failure (unreadable file, no usable
FIPS column, missing RPL_THEMES column) is caught and yields the empty
mapping. -/
def load_svi_from_csv (source : Option Csv) : List (String × ℚ) :=
  match source with
  | none => []
  | some csv =>
      match simFipsCol csv.columns with
      | none => []
      | some fc =>
          if csv.columns.contains "RPL_THEMES" then
            simSviFold csv.columns fc csv.rows []
          else []

/-- The NEW SVI LOGIC of run_simulation (src/utils/simulation.py lines
148-157): a value present in the loaded mapping is used as-is unless it
is negative (the -999 CDC missing-data code), which is replaced by 0.5;
a missing identifier instead gets a rounded uniform draw whose range
depends on the urban prefix.  draw a b models random.uniform(a, b). -/
def simulation_svi (real_svi_data : List (String × ℚ)) (tid : String)
    (draw : ℚ → ℚ → ℚ) : ℚ :=
  match lookupKey real_svi_data tid with
  | some svi => if svi < 0 then 0.5 else svi
  | none =>
      if pyStartsWith tid "3604506" then round2 (draw 0.5 0.95)
      else round2 (draw 0.1 0.6)

/-- The simulation variant's demographic profile (six fields, no
insurance/broadband rates). -/
structure SimDemo where
  total_pop : ℤ
  pct_under_18 : ℚ
  pct_senior : ℚ
  pct_white : ℚ
  pct_black : ℚ
  pct_hispanic : ℚ
deriving Repr, DecidableEq

/-- The dummy demographics dict run_simulation substitutes when the ACS
join misses (src/utils/simulation.py lines 143-146). -/
def simDummyDemo : SimDemo :=
  { total_pop := 1000, pct_under_18 := 20, pct_senior := 15,
    pct_white := 80, pct_black := 5, pct_hispanic := 5 }

/-- A raw_tracts row as run_simulation writes it: the demographics blob
is always a dict (the dummy when the join misses). -/
structure SimTractRow where
  tract_id : String
  name : String
  geometry : String
  overall_svi : ℚ
  housing_svi : ℚ
  poverty_rate : ℚ
  pop_density : ℚ
  demographics_json : SimDemo
deriving Repr, DecidableEq

/-- The store as populated by run_simulation. -/
structure SimStore where
  raw_tracts : List SimTractRow
  raw_assets : List AssetRow
deriving Repr, DecidableEq

/-- The store right after reset_db, simulation variant. -/
def emptySimStore : SimStore := { raw_tracts := [], raw_assets := [] }

/-- A plain INSERT INTO raw_tracts under the simulation variant: the same
PRIMARY KEY semantics as insertTract. -/
def insertSimTract (store : SimStore) (row : SimTractRow) :
    Except String SimStore :=
  if store.raw_tracts.any (fun r => r.tract_id = row.tract_id) then
    Except.error "UNIQUE constraint failed: raw_tracts.tract_id"
  else
    Except.ok { store with raw_tracts := store.raw_tracts ++ [row] }

/-- The asset-type vocabulary of run_simulation
(src/utils/simulation.py line 166). -/
def sim_assets_types : List String :=
  ["Library", "School", "Community Center", "Park", "Clinic"]

/-- The ambient randomness of run_simulation: a uniform draw per tract
position for the SVI fallback, and seeds for the asset draws and type
choices. -/
structure SimRng where
  uniformDraw : ℕ → ℚ → ℚ → ℚ
  assetSeed : ℕ → ℕ
  typeSeed : ℕ → ℕ → ℕ

/-- The tract insert loop of run_simulation (src/utils/simulation.py
lines 138-163), also accumulating tract_ids = [(tid, svi), ...]. -/
def run_sim_insert_loop (demos : List (String × SimDemo))
    (real_svi_data : List (String × ℚ)) (rng : SimRng) :
    List Tract → ℕ → SimStore → List (String × ℚ) →
      Except String (SimStore × List (String × ℚ))
  | [], _, store, tract_ids => Except.ok (store, tract_ids)
  | t :: rest, idx, store, tract_ids =>
      let tid := t.geoid
      let svi := simulation_svi real_svi_data tid (rng.uniformDraw idx)
      match insertSimTract store
        { tract_id := tid,
          name := "Tract " ++ (match t.name with | some s => s | none => "None"),
          geometry := t.geometry, overall_svi := svi, housing_svi := 0,
          poverty_rate := 0, pop_density := 0,
          demographics_json := (lookupKey demos tid).getD simDummyDemo } with
      | Except.error e => Except.error e
      | Except.ok store1 =>
          run_sim_insert_loop demos real_svi_data rng rest (idx + 1) store1
            (tract_ids ++ [(tid, svi)])

/-- The asset loop of run_simulation (src/utils/simulation.py lines
165-174): per (tid, svi), draw the count from [0, 1, 2, 4] and insert
that many assets with fresh uuids (modelled (idx, j)). -/
def run_sim_asset_loop (rng : SimRng) :
    List (String × ℚ) → ℕ → SimStore → SimStore
  | [], _, store => store
  | p :: rest, idx, store =>
      let num := random_choices [0, 1, 2, 4] (rng.assetSeed idx)
      let block := (List.range num).map (fun j =>
        { asset_id := ((idx, j) : ℕ × ℕ), tract_id := p.1,
          asset_type := sim_assets_types.getD
            (rng.typeSeed idx j % sim_assets_types.length) "School" })
      run_sim_asset_loop rng rest (idx + 1)
        { store with raw_assets := store.raw_assets ++ block }

/-- run_simulation (src/utils/simulation.py lines 117-179): reset the
store, fetch the geography, load the CSV without value filtering, abort
(leaving the store empty) when no tracts were fetched, else insert the
tract rows and then simulate assets.  The demographics-mapping parameter
stands for the decoded result of fetch_real_demographics. -/
def run_simulation (geoResp : Option (List GeoFeature))
    (demos : List (String × SimDemo)) (sviCsv : Option Csv) (rng : SimRng) :
    Except String SimStore :=
  let tracts := fetch_real_tracts geoResp
  let real_svi_data := load_svi_from_csv sviCsv
  if tracts.isEmpty then Except.ok emptySimStore
  else
    match run_sim_insert_loop demos real_svi_data rng tracts 0 emptySimStore [] with
    | Except.error e => Except.error e
    | Except.ok sp => Except.ok (run_sim_asset_loop rng sp.2 0 sp.1)

/- ---------------------------------------------------------------
   Helper lemmas.
   --------------------------------------------------------------- -/

/-- A successful dict lookup returns a stored binding. -/
theorem lookupKey_mem {α : Type} :
    ∀ (m : List (String × α)) (k : String) (v : α),
      lookupKey m k = some v → (k, v) ∈ m := by
  intro m k v h
  induction m with
  | nil => simp [lookupKey] at h
  | cons p rest ih =>
      obtain ⟨pk, pv⟩ := p
      rw [lookupKey] at h
      by_cases hp : pk = k
      · simp only [hp, if_pos] at h
        cases h
        subst hp
        exact List.mem_cons_self _ _
      · simp only [hp, if_neg, if_false] at h
        exact List.mem_cons_of_mem _ (ih h)

/-- Every binding of setKey m k v is (k, v) or a binding of m. -/
theorem mem_setKey {α : Type} {m : List (String × α)} {k : String} {v : α}
    {p : String × α} (h : p ∈ setKey m k v) : p = (k, v) ∨ p ∈ m := by
  rcases List.mem_cons.mp h with h | h
  · exact Or.inl h
  · exact Or.inr (List.mem_of_mem_filter h)

/-- A row the loader keeps carries a score inside [0, 1]. -/
theorem rowEntry_range {columns : List String} {fc sc : String}
    {row : List Cell} {kv : String × ℚ}
    (h : rowEntry columns fc sc row = some kv) : 0 ≤ kv.2 ∧ kv.2 ≤ 1 := by
  unfold rowEntry at h
  split at h
  · split at h
    · split at h
      · cases h
        simp_all
      · cases h
    · cases h
  · cases h

/-- The loader's row loop preserves the [0, 1] range invariant. -/
theorem sviFold_range (columns : List String) (fc sc : String) :
    ∀ (rows : List (List Cell)) (m : List (String × ℚ)),
      (∀ p ∈ m, 0 ≤ p.2 ∧ p.2 ≤ 1) →
      ∀ p ∈ sviFold columns fc sc rows m, 0 ≤ p.2 ∧ p.2 ≤ 1 := by
  intro rows
  induction rows with
  | nil => intro m hm p hp; rw [sviFold] at hp; exact hm p hp
  | cons row rest ih =>
      intro m hm p hp
      rw [sviFold] at hp
      rcases hre : rowEntry columns fc sc row with _ | kv <;> rw [hre] at hp
      · exact ih m hm p hp
      · refine ih _ ?_ p hp
        intro q hq
        rcases mem_setKey hq with h | h
        · subst h; simpa using rowEntry_range hre
        · exact hm q h

/-- Every binding the loader produces lies in [0, 1]. -/
theorem load_svi_range (source : Option Csv) :
    ∀ p ∈ (load_svi_data source).svi_map, 0 ≤ p.2 ∧ p.2 ≤ 1 := by
  intro p hp
  unfold load_svi_data at hp
  rcases source with _ | csv
  · simp at hp
  · dsimp only at hp
    split at hp
    · exact sviFold_range _ _ _ _ [] (by simp) p hp
    · simp at hp

/-- The merged score is the loader's value or the 0.5 default, hence
always in [0, 1]. -/
theorem merge_svi_range (source : Option Csv) (tid : String) :
    0 ≤ merge_svi (load_svi_data source).svi_map tid ∧
      merge_svi (load_svi_data source).svi_map tid ≤ 1 := by
  unfold merge_svi
  rcases h : lookupKey (load_svi_data source).svi_map tid with _ | v
  · norm_num
  · exact load_svi_range source _ (lookupKey_mem _ _ _ h)

/-- Characterization of a successful run of the insert loop: the stored
tract rows are the prior rows followed by one mkRow per fetched tract,
the asset rows are the prior rows followed by the per-tract blocks, the
inserted identifiers are pairwise distinct, and none of them collides
with a previously stored identifier. -/
theorem run_etl_loop_ok (svi_map : List (String × ℚ))
    (demos : List (String × DemoProfile)) (rng : EtlRng) :
    ∀ (tracts : List Tract) (idx : ℕ) (store0 store : Store),
      run_etl_loop svi_map demos rng tracts idx store0 = Except.ok store →
      store.raw_tracts = store0.raw_tracts ++ tracts.map (mkRow svi_map demos) ∧
      store.raw_assets = store0.raw_assets ++ assetBlocks rng idx tracts ∧
      (tracts.map Tract.geoid).Nodup ∧
      (∀ g ∈ tracts.map Tract.geoid, ∀ r ∈ store0.raw_tracts, r.tract_id ≠ g) := by
  intro tracts
  induction tracts with
  | nil =>
      intro idx store0 store h
      rw [run_etl_loop] at h
      cases h
      simp [assetBlocks]
  | cons t rest ih =>
      intro idx store0 store h
      rw [run_etl_loop] at h
      rcases hins : insertTract store0 (mkRow svi_map demos t) with e | store1 <;>
        rw [hins] at h
      · cases h
      · have hguard : ∀ r ∈ store0.raw_tracts, r.tract_id ≠ t.geoid := by
          unfold insertTract at hins
          split at hins
          · cases hins
          · next hc =>
              intro r hr heq
              exact hc (List.any_eq_true.mpr ⟨r, hr, by simpa using heq⟩)
        have hstore1 : store1.raw_tracts = store0.raw_tracts ++ [mkRow svi_map demos t] ∧
            store1.raw_assets = store0.raw_assets := by
          unfold insertTract at hins
          split at hins
          · cases hins
          · cases hins; exact ⟨rfl, rfl⟩
        obtain ⟨h1, h2, h3, h4⟩ := ih (idx + 1) _ store h
        refine ⟨?_, ?_, ?_, ?_⟩
        · rw [h1]
          simp [hstore1.1, List.append_assoc]
        · rw [h2]
          simp only [assetBlocks]
          simp [hstore1.2, List.append_assoc]
        · simp only [List.map_cons, List.nodup_cons]
          refine ⟨?_, h3⟩
          intro hmem
          exact h4 t.geoid hmem (mkRow svi_map demos t) (by simp [hstore1.1]) rfl
        · intro g hg r hr
          simp only [List.map_cons, List.mem_cons] at hg
          rcases hg with hg | hg
          · subst hg; exact hguard r hr
          · exact h4 g hg r (by simp [hstore1.1, hr])

/-- Filtering out bindings of another key does not change a lookup. -/
theorem lookupKey_filter_ne {α : Type} (k tid : String) (hne : k ≠ tid) :
    ∀ m : List (String × α),
      lookupKey (m.filter (fun p => ¬ (p.1 = k))) tid = lookupKey m tid := by
  intro m
  induction m with
  | nil => rfl
  | cons p rest ih =>
      by_cases hp : p.1 = k
      · rw [List.filter_cons, if_neg (by simp [hp]), ih, lookupKey,
          if_neg (by rw [hp]; exact hne)]
      · by_cases ht : p.1 = tid
        · rw [List.filter_cons, if_pos (by simp [hp]), lookupKey, if_pos ht,
            lookupKey, if_pos ht]
        · rw [List.filter_cons, if_pos (by simp [hp]), lookupKey, if_neg ht,
            ih, lookupKey, if_neg ht]

/-- Binding another key does not change a lookup. -/
theorem lookupKey_setKey_ne {α : Type} (m : List (String × α)) (k : String)
    (v : α) (tid : String) (hne : k ≠ tid) :
    lookupKey (setKey m k v) tid = lookupKey m tid := by
  unfold setKey
  rw [lookupKey]
  simp only [hne, if_false]
  exact lookupKey_filter_ne k tid hne m

/-- If no row of the loop yields a binding for tid, the loop leaves tid's
lookup unchanged. -/
theorem sviFold_not_mem (columns : List String) (fc sc : String) :
    ∀ (rows : List (List Cell)) (m : List (String × ℚ)) (tid : String),
      (∀ row ∈ rows, ∀ kv, rowEntry columns fc sc row = some kv → kv.1 ≠ tid) →
      lookupKey (sviFold columns fc sc rows m) tid = lookupKey m tid := by
  intro rows
  induction rows with
  | nil => intro m tid _; rfl
  | cons row rest ih =>
      intro m tid h
      rw [sviFold]
      rcases hre : rowEntry columns fc sc row with _ | kv <;> simp only [hre]
      · exact ih m tid (fun r hr => h r (List.mem_cons_of_mem _ hr))
      · rw [ih _ tid (fun r hr => h r (List.mem_cons_of_mem _ hr))]
        exact lookupKey_setKey_ne m kv.1 kv.2 tid
          (h row (List.mem_cons_self _ _) kv hre)

/-- An int(x or 0) success returns the totalized value. -/
theorem intOrZero_ok {c : Cell} {n : ℤ} (h : intOrZero c = Except.ok n) :
    n = intOrZeroD c := by
  unfold intOrZero at h
  unfold intOrZeroD
  split at h
  next hraw =>
    cases h
    rw [if_pos hraw]
  next hraw =>
    split at h
    next m hm =>
      cases h
      rw [if_neg hraw, hm]
      rfl
    next => cases h

/-- A float(x) if x else 0.0 success returns 0 or the parsed value. -/
theorem floatOrZero_ok {c : Cell} {q : ℚ} (h : floatOrZero c = Except.ok q) :
    q = 0 ∨ c.asFloat = some q := by
  unfold floatOrZero at h
  split at h
  · cases h; exact Or.inl rfl
  · split at h
    next m hm =>
      cases h
      exact Or.inr hm
    next => cases h

/-- A pct(n) success returns exactly the rounded count/total ratio. -/
theorem pctE_ok {total : ℤ} {c : Cell} {q : ℚ}
    (h : pctE total c = Except.ok q) :
    q = round1 ((intOrZeroD c : ℚ) / (total : ℚ) * 100) := by
  unfold pctE at h
  split at h
  · cases h
  · next n hn =>
      cases h
      rw [intOrZero_ok hn]

/-- Field characterization of a retained demographics row. -/
theorem acsRowEntry_ok {r : List Cell} {g : String} {p : DemoProfile}
    (h : acsRowEntry r = Except.ok (some (g, p))) :
    g = acsGeoid r ∧
    intOrZero (pyIdx r 0) = Except.ok p.total_pop ∧
    p.total_pop ≠ 0 ∧
    p.pct_under_18 = round1 ((intOrZeroD (pyIdx r 1) : ℚ) / (p.total_pop : ℚ) * 100) ∧
    p.pct_senior = round1 ((intOrZeroD (pyIdx r 2) : ℚ) / (p.total_pop : ℚ) * 100) ∧
    p.pct_white = round1 ((intOrZeroD (pyIdx r 3) : ℚ) / (p.total_pop : ℚ) * 100) ∧
    p.pct_black = round1 ((intOrZeroD (pyIdx r 4) : ℚ) / (p.total_pop : ℚ) * 100) ∧
    p.pct_hispanic = round1 ((intOrZeroD (pyIdx r 5) : ℚ) / (p.total_pop : ℚ) * 100) ∧
    floatOrZero (pyIdx r 6) = Except.ok p.pct_uninsured ∧
    floatOrZero (pyIdx r 7) = Except.ok p.pct_broadband := by
  unfold acsRowEntry at h
  split at h
  · cases h
  · split at h
    · cases h
    · next total htot =>
        split at h
        · cases h
        · next hne =>
            split at h
            · next p1 p2 p3 p4 p5 u b h1 h2 h3 h4 h5 h6 h7 =>
                cases h
                refine ⟨rfl, htot, hne, ?_, ?_, ?_, ?_, ?_, h6, h7⟩ <;>
                  simp [pctE_ok h1, pctE_ok h2, pctE_ok h3, pctE_ok h4, pctE_ok h5]
            · cases h

/-- Claim C1: the view's derived category tag is a pure function of
(vulnerability score, asset count) equal to first-match-wins evaluation of
the spec's ordered four-rule table; in particular a unit with score above
0.75 and asset count 2 or 3 falls through to "General Opportunity". -/
theorem C1_context_tag_matches_rule_table :
    ∀ (score : ℚ) (asset_count : ℕ),
      context_tag score asset_count
        = firstMatchCategory specCategoryRules (score, asset_count) ∧
      (score > 0.75 → asset_count = 2 ∨ asset_count = 3 →
        context_tag score asset_count = "General Opportunity") := by
  intro s ac
  constructor
  · by_cases h1 : s > 0.75 <;> by_cases h2 : ac < 2 <;>
      by_cases h3 : ac ≥ 4 <;> by_cases h4 : s < 0.25 <;>
      simp [context_tag, firstMatchCategory, specCategoryRules, h1, h2, h3, h4]
  · intro hs hac
    have h4 : ¬ s < 0.25 := by
      intro h; norm_num at hs h; linarith
    rcases hac with h | h <;> subst h <;> simp [context_tag, hs, h4]

/-- Witness for C1 at the documented gap case: score 0.8 with asset count 2
falls to "General Opportunity". -/
theorem C1_context_tag_matches_rule_table_witness :
    context_tag 0.8 2 = firstMatchCategory specCategoryRules (0.8, 2) ∧
    context_tag 0.8 2 = "General Opportunity" :=
  ⟨(C1_context_tag_matches_rule_table 0.8 2).1,
   (C1_context_tag_matches_rule_table 0.8 2).2 (by norm_num) (Or.inl rfl)⟩

/- ---------------------------------------------------------------
   A concrete successful rebuild, shared by several witnesses.
   --------------------------------------------------------------- -/

/-- A concrete geography feature with a valid 11-character GEOID. -/
def wGeoFeature : GeoFeature :=
  { GEOID := some "36045010100", NAME := some "9101", geometry := "g" }

/-- A concrete randomness source (every seed 0). -/
def wRng : EtlRng := { assetSeed := fun _ => 0, typeSeed := fun _ _ => 0 }

/-- The tract row the concrete rebuild persists. -/
def wRow : TractRow :=
  { tract_id := "36045010100", name := "Tract 9101", geometry := "g",
    overall_svi := 0.5, housing_svi := 0, poverty_rate := 0,
    pop_density := 0, demographics_json := none }

/-- The store the concrete rebuild produces. -/
def wStore : Store := { raw_tracts := [wRow], raw_assets := [] }

/-- The concrete rebuild succeeds and produces wStore. -/
theorem wRun : run_etl (some [wGeoFeature]) none none wRng = Except.ok wStore := rfl

/-- A concrete vulnerability CSV giving the concrete tract score 1. -/
def w2Csv : Csv :=
  { columns := ["FIPS", "RPL_THEMES"],
    rows := [[{ raw := "36045010100", asInt := none, asFloat := none },
              { raw := "1.0", asInt := none, asFloat := some 1 }]] }

/-- The tract row the second concrete rebuild persists. -/
def w2Row : TractRow :=
  { tract_id := "36045010100", name := "Tract 9101", geometry := "g",
    overall_svi := 1, housing_svi := 0, poverty_rate := 0,
    pop_density := 0, demographics_json := none }

/-- The store the second concrete rebuild produces. -/
def w2Store : Store := { raw_tracts := [w2Row], raw_assets := [] }

/-- The second concrete rebuild succeeds and produces w2Store. -/
theorem w2Run :
    run_etl (some [wGeoFeature]) none (some w2Csv) wRng = Except.ok w2Store := by
  decide

/-- Claim C2: every unit persisted by a completed main-pipeline rebuild
carries a vulnerability score in [0, 1]: the loader keeps only in-range
source values and the merge substitutes the in-range default 0.5 for
identifiers its mapping misses. -/
theorem C2_persisted_svi_in_unit_interval :
    ∀ (geoResp : Option (List GeoFeature)) (acsResp : Option (List (List Cell)))
      (sviCsv : Option Csv) (rng : EtlRng) (store : Store),
      run_etl geoResp acsResp sviCsv rng = Except.ok store →
      ∀ row ∈ store.raw_tracts, 0 ≤ row.overall_svi ∧ row.overall_svi ≤ 1 := by
  intro geoResp acsResp sviCsv rng store h row hrow
  unfold run_etl at h
  obtain ⟨h1, -, -, -⟩ := run_etl_loop_ok _ _ _ _ _ _ _ h
  rw [h1] at hrow
  simp only [emptyStore, List.nil_append] at hrow
  obtain ⟨t, ht, rfl⟩ := List.mem_map.mp hrow
  simpa [mkRow] using merge_svi_range sviCsv t.geoid

/-- Witness for C2: the concrete rebuild's persisted score is in [0, 1]. -/
theorem C2_persisted_svi_in_unit_interval_witness :
    0 ≤ wRow.overall_svi ∧ wRow.overall_svi ≤ 1 :=
  C2_persisted_svi_in_unit_interval (some [wGeoFeature]) none none wRng wStore
    wRun wRow (by simp [wStore])

/-- A vulnerability CSV carrying the out-of-range score 2.0 for the
concrete tract. -/
def wSimCsv : Csv :=
  { columns := ["FIPS", "RPL_THEMES"],
    rows := [[{ raw := "36045010100", asInt := none, asFloat := none },
              { raw := "2.0", asInt := none, asFloat := some 2 }]] }

/-- A concrete simulation randomness source: uniform draws return the
lower bound of their range, every seed is 0. -/
def wSimRng : SimRng :=
  { uniformDraw := fun _ a _ => a, assetSeed := fun _ => 0,
    typeSeed := fun _ _ => 0 }

/-- The tract row the simulation rebuild persists from wSimCsv. -/
def wSimRow : SimTractRow :=
  { tract_id := "36045010100", name := "Tract 9101", geometry := "g",
    overall_svi := 2, housing_svi := 0, poverty_rate := 0,
    pop_density := 0, demographics_json := simDummyDemo }

/-- The store the simulation rebuild produces from wSimCsv. -/
def wSimStore : SimStore := { raw_tracts := [wSimRow], raw_assets := [] }

/-- Counterexample to C2: the simulation variant's rebuild also
repopulates the store, but its loader filters nothing and its merge only
replaces negative values, so a completed rebuild persists the
out-of-range score 2 unchanged. -/
theorem C2_sim_out_of_range_counterexample :
    run_simulation (some [wGeoFeature]) [] (some wSimCsv) wSimRng
      = Except.ok wSimStore ∧
    wSimRow ∈ wSimStore.raw_tracts ∧
    wSimRow.overall_svi = 2 ∧ ¬ (wSimRow.overall_svi ≤ 1) := by
  refine ⟨rfl, by simp [wSimStore], rfl, by norm_num [wSimRow]⟩

/-- Claim C4: the geography fetch accepts a feature into its output
exactly when its identifier has length 11, and consequently every
identifier persisted by a completed rebuild has length 11. -/
theorem C4_tract_id_length_eleven :
    (∀ (feats : List GeoFeature) (u : Tract),
        u ∈ fetch_regional_tracts (some feats) → u.geoid.length = 11) ∧
    (∀ (feats : List GeoFeature) (f : GeoFeature) (g : String),
        f ∈ feats → f.GEOID = some g → g.length = 11 →
        ∃ u ∈ fetch_regional_tracts (some feats), u.geoid = g) ∧
    (∀ (geoResp : Option (List GeoFeature)) (acsResp : Option (List (List Cell)))
        (sviCsv : Option Csv) (rng : EtlRng) (store : Store),
        run_etl geoResp acsResp sviCsv rng = Except.ok store →
        ∀ row ∈ store.raw_tracts, row.tract_id.length = 11) := by
  have hlen : ∀ (u : Tract) (f : GeoFeature), toTract f = some u →
      u.geoid.length = 11 := by
    intro u f hf
    unfold toTract at hf
    split at hf
    next geoid heq =>
      split at hf
      next hc =>
        cases hf
        exact hc.2
      next => cases hf
    next => cases hf
  refine ⟨?_, ?_, ?_⟩
  · intro feats u hu
    obtain ⟨f, -, hf⟩ := List.mem_filterMap.mp hu
    exact hlen u f hf
  · intro feats f g hf hg hglen
    have hne : g ≠ "" := by
      intro he
      rw [he] at hglen
      simp at hglen
    refine ⟨{ geoid := g, name := f.NAME, geometry := f.geometry }, ?_, rfl⟩
    exact List.mem_filterMap.mpr ⟨f, hf, by simp [toTract, hg, hne, hglen]⟩
  · intro geoResp acsResp sviCsv rng store h row hrow
    unfold run_etl at h
    obtain ⟨h1, -, -, -⟩ := run_etl_loop_ok _ _ _ _ _ _ _ h
    rw [h1] at hrow
    simp only [emptyStore, List.nil_append] at hrow
    obtain ⟨t, ht, rfl⟩ := List.mem_map.mp hrow
    rcases geoResp with _ | feats
    · simp [fetch_regional_tracts] at ht
    · obtain ⟨f, -, hf⟩ := List.mem_filterMap.mp ht
      exact hlen t f hf

/-- Witness for C4: the concrete feature is accepted and its persisted
identifier has length 11. -/
theorem C4_tract_id_length_eleven_witness :
    (∃ u ∈ fetch_regional_tracts (some [wGeoFeature]),
        u.geoid = "36045010100") ∧
    wRow.tract_id.length = 11 :=
  ⟨C4_tract_id_length_eleven.2.1 [wGeoFeature] wGeoFeature "36045010100"
      (by simp) rfl (by decide),
   C4_tract_id_length_eleven.2.2 (some [wGeoFeature]) none none wRng wStore
      wRun wRow (by simp [wStore])⟩

/-- Claim C10: tract_id is the primary key and the rebuild uses plain
inserts, so a completed rebuild stores pairwise-distinct identifiers, and
a geography fetch result with a duplicated identifier makes the rebuild
raise instead of overwriting. -/
theorem C10_tract_id_primary_key :
    (∀ (geoResp : Option (List GeoFeature)) (acsResp : Option (List (List Cell)))
        (sviCsv : Option Csv) (rng : EtlRng) (store : Store),
        run_etl geoResp acsResp sviCsv rng = Except.ok store →
        (store.raw_tracts.map TractRow.tract_id).Nodup) ∧
    (∀ (geoResp : Option (List GeoFeature)) (acsResp : Option (List (List Cell)))
        (sviCsv : Option Csv) (rng : EtlRng),
        ¬ ((fetch_regional_tracts geoResp).map Tract.geoid).Nodup →
        ∃ e, run_etl geoResp acsResp sviCsv rng = Except.error e) := by
  constructor
  · intro geoResp acsResp sviCsv rng store h
    unfold run_etl at h
    obtain ⟨h1, -, h3, -⟩ := run_etl_loop_ok _ _ _ _ _ _ _ h
    rw [h1]
    simp only [emptyStore, List.nil_append, List.map_map]
    have : (TractRow.tract_id ∘ mkRow (load_svi_data sviCsv).svi_map
        (fetch_acs_demographics acsResp)) = Tract.geoid := by
      funext t
      rfl
    rw [this]
    exact h3
  · intro geoResp acsResp sviCsv rng hdup
    rcases hres : run_etl geoResp acsResp sviCsv rng with e | store
    · exact ⟨e, rfl⟩
    · exfalso
      unfold run_etl at hres
      obtain ⟨-, -, h3, -⟩ := run_etl_loop_ok _ _ _ _ _ _ _ hres
      exact hdup h3

/-- The run_etl asset draw takes its value in the candidate list [0, 3]. -/
theorem random_choices_zero_three (seed : ℕ) :
    random_choices [0, 3] seed = 0 ∨ random_choices [0, 3] seed = 3 := by
  unfold random_choices
  rcases Nat.mod_two_eq_zero_or_one seed with h | h <;>
    simp [List.length_cons, h]

/-- An asset block of one tract contributes nothing to another tract's
asset count. -/
theorem tractAssets_filter_ne (rng : EtlRng) (idx : ℕ) (g : String)
    (num : ℕ) (tid : String) (h : tid ≠ g) :
    (tractAssets rng idx g num).filter (fun a => a.tract_id = tid) = [] := by
  refine List.filter_eq_nil_iff.mpr ?_
  intro a ha
  unfold tractAssets at ha
  obtain ⟨j, hj, rfl⟩ := List.mem_map.mp ha
  simp [Ne.symm h]

/-- An asset block of one tract is wholly owned by that tract. -/
theorem tractAssets_filter_self (rng : EtlRng) (idx : ℕ) (g : String)
    (num : ℕ) :
    (tractAssets rng idx g num).filter (fun a => a.tract_id = g)
      = tractAssets rng idx g num := by
  refine List.filter_eq_self.mpr ?_
  intro a ha
  unfold tractAssets at ha
  obtain ⟨j, hj, rfl⟩ := List.mem_map.mp ha
  simp

/-- The distinct-id count of one tract's asset block is its draw: the
modelled uuids (idx, j) are pairwise distinct. -/
theorem countAssets_tractAssets (rng : EtlRng) (idx : ℕ) (g : String)
    (num : ℕ) : countAssets (tractAssets rng idx g num) g = num := by
  unfold countAssets
  rw [tractAssets_filter_self]
  have hmap : (tractAssets rng idx g num).map AssetRow.asset_id
      = (List.range num).map (fun j => (idx, j)) := by
    unfold tractAssets
    rw [List.map_map]
    rfl
  rw [hmap]
  have hnd : ((List.range num).map (fun j => ((idx, j) : ℕ × ℕ))).Nodup := by
    refine (List.nodup_range num).map ?_
    intro a b hab
    simpa using hab
  rw [List.Nodup.dedup hnd, List.length_map, List.length_range]

/-- Asset blocks of tracts other than tid contribute nothing to tid's
asset count. -/
theorem assetBlocks_filter_notmem (rng : EtlRng) :
    ∀ (tracts : List Tract) (idx : ℕ) (tid : String),
      tid ∉ tracts.map Tract.geoid →
      (assetBlocks rng idx tracts).filter (fun a => a.tract_id = tid) = [] := by
  intro tracts
  induction tracts with
  | nil => intro idx tid _; rw [assetBlocks]; rfl
  | cons t rest ih =>
      intro idx tid h
      rw [List.map_cons, List.mem_cons] at h
      push_neg at h
      rw [assetBlocks, List.filter_append,
        tractAssets_filter_ne rng idx t.geoid _ tid h.1, ih _ tid h.2]
      rfl

/-- Over a successful run's asset blocks, every fetched tract's distinct
asset count is 0 or 3. -/
theorem countAssets_assetBlocks (rng : EtlRng) :
    ∀ (tracts : List Tract) (idx : ℕ) (tid : String),
      (tracts.map Tract.geoid).Nodup → tid ∈ tracts.map Tract.geoid →
      countAssets (assetBlocks rng idx tracts) tid = 0 ∨
        countAssets (assetBlocks rng idx tracts) tid = 3 := by
  intro tracts
  induction tracts with
  | nil => intro idx tid _ h; simp at h
  | cons t rest ih =>
      intro idx tid hnd hmem
      rw [List.map_cons, List.nodup_cons] at hnd
      rw [List.map_cons, List.mem_cons] at hmem
      rcases hmem with hmem | hmem
      · subst hmem
        have heq : countAssets (assetBlocks rng idx (t :: rest)) t.geoid
            = countAssets (tractAssets rng idx t.geoid (numAssetsAt rng idx)) t.geoid := by
          unfold countAssets
          rw [assetBlocks, List.filter_append,
            assetBlocks_filter_notmem rng rest _ t.geoid hnd.1, List.append_nil]
        rw [heq, countAssets_tractAssets]
        unfold numAssetsAt
        exact random_choices_zero_three (rng.assetSeed idx)
      · have hne : tid ≠ t.geoid := by
          intro he
          subst he
          exact hnd.1 hmem
        have heq : countAssets (assetBlocks rng idx (t :: rest)) tid
            = countAssets (assetBlocks rng (idx + 1) rest) tid := by
          unfold countAssets
          rw [assetBlocks, List.filter_append,
            tractAssets_filter_ne rng idx t.geoid _ tid hne, List.nil_append]
        rw [heq]
        exact ih (idx + 1) tid hnd.2 hmem

/-- For an asset count of 0 or 3 the hub rule cannot fire, and under
score above 0.75 the desert rule fires exactly at count 0. -/
theorem context_tag_of_count (svi : ℚ) (c : ℕ) (hc : c = 0 ∨ c = 3) :
    context_tag svi c ≠ "High-Capacity Hub" ∧
    (svi > 0.75 → (context_tag svi c = "Urgent Desert" ↔ c = 0)) := by
  rcases hc with rfl | rfl
  · constructor
    · intro h
      unfold context_tag at h
      split_ifs at h with h1 h2 h3 <;> simp_all
    · intro hs
      simp [context_tag, hs]
  · have h1 : ¬ ((3 : ℕ) < 2) := by omega
    have h2 : ¬ ((3 : ℕ) ≥ 4) := by omega
    constructor
    · intro h
      unfold context_tag at h
      split_ifs at h with ha hb hc <;> simp_all
    · intro hs
      have h4 : ¬ svi < 0.25 := by
        intro hlt
        norm_num at hs hlt
        linarith
      simp [context_tag, h1, h2, h4, hs]

/-- Claim C6: the main pipeline's per-unit asset draw comes from {0, 3};
hence every persisted unit's distinct asset count is 0 or 3, the
High-Capacity Hub rule never fires for a rebuilt unit, and for score
above 0.75 the Urgent Desert tag holds exactly when the draw was 0. -/
theorem C6_asset_draw_zero_or_three :
    (∀ seed, random_choices [0, 3] seed = 0 ∨ random_choices [0, 3] seed = 3) ∧
    (∀ (geoResp : Option (List GeoFeature)) (acsResp : Option (List (List Cell)))
        (sviCsv : Option Csv) (rng : EtlRng) (store : Store),
        run_etl geoResp acsResp sviCsv rng = Except.ok store →
        ∀ row ∈ store.raw_tracts,
          (countAssets store.raw_assets row.tract_id = 0 ∨
            countAssets store.raw_assets row.tract_id = 3) ∧
          context_tag row.overall_svi (countAssets store.raw_assets row.tract_id)
            ≠ "High-Capacity Hub" ∧
          (row.overall_svi > 0.75 →
            (context_tag row.overall_svi (countAssets store.raw_assets row.tract_id)
                = "Urgent Desert" ↔
              countAssets store.raw_assets row.tract_id = 0))) := by
  refine ⟨random_choices_zero_three, ?_⟩
  intro geoResp acsResp sviCsv rng store h row hrow
  unfold run_etl at h
  obtain ⟨h1, h2, h3, -⟩ := run_etl_loop_ok _ _ _ _ _ _ _ h
  rw [h1] at hrow
  simp only [emptyStore, List.nil_append] at hrow
  obtain ⟨t, ht, rfl⟩ := List.mem_map.mp hrow
  have htid : (mkRow (load_svi_data sviCsv).svi_map
      (fetch_acs_demographics acsResp) t).tract_id = t.geoid := rfl
  have hcnt : countAssets store.raw_assets t.geoid = 0 ∨
      countAssets store.raw_assets t.geoid = 3 := by
    rw [h2]
    simp only [emptyStore, List.nil_append]
    exact countAssets_assetBlocks rng _ 0 t.geoid h3
      (List.mem_map.mpr ⟨t, ht, rfl⟩)
  rw [htid]
  exact ⟨hcnt, context_tag_of_count _ _ hcnt⟩

/-- Witness for C6: a concrete rebuild whose single unit has score 1
and draw 0; the unit's count is 0 and it is tagged Urgent Desert. -/
theorem C6_asset_draw_zero_or_three_witness :
    (random_choices [0, 3] 0 = 0 ∨ random_choices [0, 3] 0 = 3) ∧
    (countAssets w2Store.raw_assets w2Row.tract_id = 0 ∨
      countAssets w2Store.raw_assets w2Row.tract_id = 3) ∧
    (context_tag w2Row.overall_svi (countAssets w2Store.raw_assets w2Row.tract_id)
        = "Urgent Desert" ↔ countAssets w2Store.raw_assets w2Row.tract_id = 0) :=
  ⟨C6_asset_draw_zero_or_three.1 0,
   (C6_asset_draw_zero_or_three.2 (some [wGeoFeature]) none (some w2Csv) wRng
      w2Store w2Run w2Row (by simp [w2Store])).1,
   (C6_asset_draw_zero_or_three.2 (some [wGeoFeature]) none (some w2Csv) wRng
      w2Store w2Run w2Row (by simp [w2Store])).2.2 (by norm_num [w2Row])⟩

/-- Claim C9: when the loader cannot locate the identifier column or the
overall-score column through its case-insensitive alias lists, it reports
a warning and returns an empty mapping; the loader is total (every
failure path is caught and yields a result). -/
theorem C9_loader_missing_columns :
    ∀ csv : Csv,
      findCol csv.columns FIPS_ALIASES = none ∨
        findCol csv.columns SVI_ALIASES = none →
      load_svi_data (some csv) = { warned := true, svi_map := [] } := by
  intro csv h
  unfold load_svi_data
  dsimp only
  rcases h with h | h
  · rw [h]
  · rcases h1 : findCol csv.columns FIPS_ALIASES with _ | fc <;> rw [h]

/-- A concrete CSV with no recognizable identifier or score column. -/
def w9Csv : Csv := { columns := ["foo", "bar"], rows := [] }

/-- Witness for C9: the unrecognizable CSV yields a warning and an empty
mapping. -/
theorem C9_loader_missing_columns_witness :
    load_svi_data (some w9Csv) = { warned := true, svi_map := [] } :=
  C9_loader_missing_columns w9Csv (Or.inl (by decide))

/-- A concrete CSV whose single row for the key "X" carries the CDC
missing-data sentinel -999. -/
def w3Csv : Csv :=
  { columns := ["FIPS", "RPL_THEMES"],
    rows := [[{ raw := "X", asInt := none, asFloat := none },
              { raw := "-999", asInt := some (-999), asFloat := some (-999) }]] }

/-- A vulnerability CSV whose only row, for the key "Y", carries the
sentinel -999. -/
def w3SimCsv : Csv :=
  { columns := ["FIPS", "RPL_THEMES"],
    rows := [[{ raw := "Y", asInt := none, asFloat := none },
              { raw := "-999", asInt := some (-999), asFloat := some (-999) }]] }

/-- Counterexample to C3: under the simulation variant's cited merge, the
loader's mapping holds -999 for "Y" (load_svi_from_csv excludes
nothing), yet the merged score is 0.5, not the mapping value; and a
missing identifier merges to the rounded uniform draw (here 0.1, the
lower bound of the non-urban range), not exactly 0.5. -/
theorem C3_sim_merge_counterexample :
    lookupKey (load_svi_from_csv (some w3SimCsv)) "Y" = some (-999) ∧
    simulation_svi (load_svi_from_csv (some w3SimCsv)) "Y"
      (wSimRng.uniformDraw 0) = 0.5 ∧
    ¬ ((0.5 : ℚ) = -999) ∧
    simulation_svi [] "X" (wSimRng.uniformDraw 0) = 0.1 ∧
    ¬ ((0.1 : ℚ) = 0.5) := by
  refine ⟨by decide, rfl, by norm_num, ?_, by norm_num⟩
  unfold simulation_svi
  dsimp only [lookupKey]
  rw [if_neg (by decide)]
  show round2 (0.1 : ℚ) = 0.1
  unfold round2
  rw [show (0.1 : ℚ) * 100 = ((10 : ℤ) : ℚ) by norm_num]
  unfold roundHalfEven
  rw [Int.floor_intCast, if_pos (by simp)]
  norm_num

/-- Claim C3 as amended: the main pipeline's merge (run_etl) assigns the
loader's mapping value when the identifier is present and exactly 0.5
otherwise, and a unit whose only vulnerability source rows carry -999
(excluded by that loader) merges to 0.5; the simulation variant's merge
instead keeps a present value only when it is nonnegative, and replaces
a present negative value (the -999 sentinel, which its loader does not
exclude) by 0.5, so under it too a -999-carrying unit ends with 0.5. -/
theorem C3_merge_value_or_default :
    (∀ (m : List (String × ℚ)) (tid : String) (v : ℚ),
        lookupKey m tid = some v → merge_svi m tid = v) ∧
    (∀ (m : List (String × ℚ)) (tid : String),
        lookupKey m tid = none → merge_svi m tid = 0.5) ∧
    (∀ (csv : Csv) (fc sc : String) (tid : String),
        findCol csv.columns FIPS_ALIASES = some fc →
        findCol csv.columns SVI_ALIASES = some sc →
        (∀ row ∈ csv.rows, ∀ fcell scell,
            cellLookup csv.columns row fc = some fcell →
            cellLookup csv.columns row sc = some scell →
            fcell.raw = tid → scell.asFloat = some (-999)) →
        merge_svi (load_svi_data (some csv)).svi_map tid = 0.5) ∧
    (∀ (m : List (String × ℚ)) (tid : String) (draw : ℚ → ℚ → ℚ) (v : ℚ),
        lookupKey m tid = some v → ¬ v < 0 →
        simulation_svi m tid draw = v) ∧
    (∀ (m : List (String × ℚ)) (tid : String) (draw : ℚ → ℚ → ℚ) (v : ℚ),
        lookupKey m tid = some v → v < 0 →
        simulation_svi m tid draw = 0.5) := by
  refine ⟨?_, ?_, ?_, ?_, ?_⟩
  · intro m tid v h
    unfold merge_svi
    rw [h]
  · intro m tid h
    unfold merge_svi
    rw [h]
  · intro csv fc sc tid hfc hsc hrows
    have hnone : lookupKey (load_svi_data (some csv)).svi_map tid = none := by
      unfold load_svi_data
      dsimp only
      rw [hfc, hsc]
      dsimp only
      rw [sviFold_not_mem csv.columns fc sc csv.rows [] tid ?_]
      · rfl
      · intro row hr kv hre
        intro heq
        unfold rowEntry at hre
        split at hre
        next fcell scell hf hs =>
          split at hre
          next val hval =>
            split at hre
            next hrange =>
              cases hre
              have hsent := hrows row hr fcell scell hf hs heq
              rw [hval] at hsent
              cases hsent
              norm_num at hrange
            next => cases hre
          next => cases hre
        next => cases hre
    unfold merge_svi
    rw [hnone]
  · intro m tid draw v h hneg
    unfold simulation_svi
    rw [h]
    dsimp only
    rw [if_neg hneg]
  · intro m tid draw v h hneg
    unfold simulation_svi
    rw [h]
    dsimp only
    rw [if_pos hneg]

/-- Witness for the amended C3: a present key merges to its value under
run_etl, an absent key merges to 0.5, the concrete sentinel-only CSV
merges its key "X" to 0.5, and under the simulation variant a present
nonnegative value is kept while a present -999 merges to 0.5. -/
theorem C3_merge_value_or_default_witness :
    merge_svi [("a", 1)] "a" = 1 ∧ merge_svi [] "a" = 0.5 ∧
    merge_svi (load_svi_data (some w3Csv)).svi_map "X" = 0.5 ∧
    simulation_svi [("a", 1)] "a" (wSimRng.uniformDraw 0) = 1 ∧
    simulation_svi [("Y", -999)] "Y" (wSimRng.uniformDraw 0) = 0.5 :=
  ⟨C3_merge_value_or_default.1 [("a", 1)] "a" 1 (by decide),
   C3_merge_value_or_default.2.1 [] "a" rfl,
   C3_merge_value_or_default.2.2.1 w3Csv "FIPS" "RPL_THEMES" "X" (by decide)
     (by decide)
     (by
       intro row hr fcell scell hf hs hraw
       simp only [w3Csv, List.mem_singleton] at hr
       subst hr
       simp only [w3Csv] at hs
       rw [cellLookup, if_neg (by decide), cellLookup, if_pos rfl] at hs
       cases hs
       rfl),
   C3_merge_value_or_default.2.2.2.1 [("a", 1)] "a" (wSimRng.uniformDraw 0) 1
     (by decide) (by norm_num),
   C3_merge_value_or_default.2.2.2.2 [("Y", -999)] "Y" (wSimRng.uniformDraw 0)
     (-999) (by decide) (by norm_num)⟩

/-- Rounding an integer changes nothing. -/
theorem round1_int (n : ℤ) : round1 ((n : ℚ)) = (n : ℚ) := by
  unfold round1 roundHalfEven
  have h10 : ((n : ℚ)) * 10 = (((10 * n : ℤ) : ℚ)) := by push_cast; ring
  rw [h10, Int.floor_intCast]
  rw [if_pos (by simp)]
  push_cast
  rw [mul_div_cancel_left₀ _ (by norm_num : (10 : ℚ) ≠ 0)]

/-- Rounding to one decimal place keeps a value of [0, 100] in [0, 100]. -/
theorem round1_bounds {x : ℚ} (h0 : 0 ≤ x) (h1 : x ≤ 100) :
    0 ≤ round1 x ∧ round1 x ≤ 100 := by
  unfold round1 roundHalfEven
  have hy0 : (0 : ℚ) ≤ x * 10 := by linarith
  have hy1 : x * 10 ≤ 1000 := by linarith
  have hfl : ((⌊x * 10⌋ : ℤ) : ℚ) ≤ x * 10 := Int.floor_le _
  have hfl0 : (0 : ℤ) ≤ ⌊x * 10⌋ := Int.floor_nonneg.mpr hy0
  have hfl0Q : (0 : ℚ) ≤ ((⌊x * 10⌋ : ℤ) : ℚ) := by exact_mod_cast hfl0
  have hfl1000 : ((⌊x * 10⌋ : ℤ) : ℚ) ≤ 1000 := le_trans hfl hy1
  split_ifs with hc1 hc2 hc3
  · constructor <;> [positivity; linarith]
  · have h999 : ((⌊x * 10⌋ : ℤ) : ℚ) < 1000 - 1/2 := by linarith
    have h999i : ⌊x * 10⌋ < 1000 := by
      have : ((⌊x * 10⌋ : ℤ) : ℚ) < 1000 := by linarith
      exact_mod_cast this
    have hle : ⌊x * 10⌋ + 1 ≤ 1000 := by omega
    have hleQ : ((⌊x * 10⌋ : ℤ) : ℚ) + 1 ≤ 1000 := by exact_mod_cast hle
    constructor
    · push_cast
      positivity
    · push_cast
      linarith
  · constructor <;> [positivity; linarith]
  · have hhalf : x * 10 - ((⌊x * 10⌋ : ℤ) : ℚ) = 1/2 := by
      rcases lt_trichotomy (x * 10 - ((⌊x * 10⌋ : ℤ) : ℚ)) (1/2) with h | h | h
      · exact absurd h hc1
      · exact h
      · exact absurd h hc2
    have h999 : ((⌊x * 10⌋ : ℤ) : ℚ) ≤ 1000 - 1/2 := by linarith
    have h999i : ⌊x * 10⌋ < 1000 := by
      have : ((⌊x * 10⌋ : ℤ) : ℚ) < 1000 := by linarith
      exact_mod_cast this
    have hle : ⌊x * 10⌋ + 1 ≤ 1000 := by omega
    have hleQ : ((⌊x * 10⌋ : ℤ) : ℚ) + 1 ≤ 1000 := by exact_mod_cast hle
    constructor
    · push_cast
      positivity
    · push_cast
      linarith

/-- A nonnegative count below its positive total gives a ratio percentage
in [0, 100]. -/
theorem pct_ratio_bounds {n total : ℤ} (h0 : 0 ≤ n) (h1 : n ≤ total)
    (hne : total ≠ 0) :
    0 ≤ (n : ℚ) / (total : ℚ) * 100 ∧ (n : ℚ) / (total : ℚ) * 100 ≤ 100 := by
  have htpos : 0 < total := by omega
  have htQ : (0 : ℚ) < (total : ℚ) := by exact_mod_cast htpos
  have hnQ : (0 : ℚ) ≤ (n : ℚ) := by exact_mod_cast h0
  constructor
  · positivity
  · have hdiv : (n : ℚ) / (total : ℚ) ≤ 1 := by
      rw [div_le_one htQ]
      exact_mod_cast h1
    nlinarith

/-- Claim C7: the demographics fetcher produces no profile for a service
row whose total-population field evaluates to zero, and each retained
row's count-derived percentages are count/total, times 100, rounded to
one decimal place. -/
theorem C7_zero_total_skipped_pct_formula :
    (∀ r : List Cell, intOrZero (pyIdx r 0) = Except.ok 0 →
        acsRowEntry r = Except.ok none) ∧
    (∀ (r : List Cell) (g : String) (p : DemoProfile),
        acsRowEntry r = Except.ok (some (g, p)) →
        p.total_pop ≠ 0 ∧
        p.pct_under_18
          = round1 ((intOrZeroD (pyIdx r 1) : ℚ) / (p.total_pop : ℚ) * 100) ∧
        p.pct_senior
          = round1 ((intOrZeroD (pyIdx r 2) : ℚ) / (p.total_pop : ℚ) * 100) ∧
        p.pct_white
          = round1 ((intOrZeroD (pyIdx r 3) : ℚ) / (p.total_pop : ℚ) * 100) ∧
        p.pct_black
          = round1 ((intOrZeroD (pyIdx r 4) : ℚ) / (p.total_pop : ℚ) * 100) ∧
        p.pct_hispanic
          = round1 ((intOrZeroD (pyIdx r 5) : ℚ) / (p.total_pop : ℚ) * 100)) := by
  constructor
  · intro r h
    unfold acsRowEntry
    split
    · rfl
    · rw [h]
      simp
  · intro r g p h
    obtain ⟨-, -, h3, h4, h5, h6, h7, h8, -, -⟩ := acsRowEntry_ok h
    exact ⟨h3, h4, h5, h6, h7, h8⟩

/-- A service row whose total-population field is the string "0". -/
def w7ZeroRow : List Cell := [{ raw := "0", asInt := some 0, asFloat := some 0 }]

/-- A retained service row: total 4, under-18 count 1, remaining counts 0,
empty rate fields, and trailing state/county/tract fragments. -/
def w7Row : List Cell :=
  [{ raw := "4", asInt := some 4, asFloat := some 4 },
   { raw := "1", asInt := some 1, asFloat := some 1 },
   { raw := "0", asInt := some 0, asFloat := some 0 },
   { raw := "0", asInt := some 0, asFloat := some 0 },
   { raw := "0", asInt := some 0, asFloat := some 0 },
   { raw := "0", asInt := some 0, asFloat := some 0 },
   { raw := "", asInt := none, asFloat := none },
   { raw := "", asInt := none, asFloat := none },
   { raw := "36", asInt := some 36, asFloat := some 36 },
   { raw := "045", asInt := some 45, asFloat := some 45 },
   { raw := "010100", asInt := some 10100, asFloat := some 10100 }]

/-- The profile the fetcher builds from w7Row. -/
def w7Profile : DemoProfile :=
  { total_pop := 4,
    pct_under_18 := round1 (((1 : ℤ) : ℚ) / ((4 : ℤ) : ℚ) * 100),
    pct_senior := round1 (((0 : ℤ) : ℚ) / ((4 : ℤ) : ℚ) * 100),
    pct_white := round1 (((0 : ℤ) : ℚ) / ((4 : ℤ) : ℚ) * 100),
    pct_black := round1 (((0 : ℤ) : ℚ) / ((4 : ℤ) : ℚ) * 100),
    pct_hispanic := round1 (((0 : ℤ) : ℚ) / ((4 : ℤ) : ℚ) * 100),
    pct_uninsured := 0, pct_broadband := 0 }

/-- Witness for C7: the zero-total row is skipped, and the retained row's
percentages follow the rounding formula. -/
theorem C7_zero_total_skipped_pct_formula_witness :
    acsRowEntry w7ZeroRow = Except.ok none ∧
    (w7Profile.total_pop ≠ 0 ∧
     w7Profile.pct_under_18
       = round1 ((intOrZeroD (pyIdx w7Row 1) : ℚ) / (w7Profile.total_pop : ℚ) * 100) ∧
     w7Profile.pct_senior
       = round1 ((intOrZeroD (pyIdx w7Row 2) : ℚ) / (w7Profile.total_pop : ℚ) * 100) ∧
     w7Profile.pct_white
       = round1 ((intOrZeroD (pyIdx w7Row 3) : ℚ) / (w7Profile.total_pop : ℚ) * 100) ∧
     w7Profile.pct_black
       = round1 ((intOrZeroD (pyIdx w7Row 4) : ℚ) / (w7Profile.total_pop : ℚ) * 100) ∧
     w7Profile.pct_hispanic
       = round1 ((intOrZeroD (pyIdx w7Row 5) : ℚ) / (w7Profile.total_pop : ℚ) * 100)) :=
  ⟨C7_zero_total_skipped_pct_formula.1 w7ZeroRow rfl,
   C7_zero_total_skipped_pct_formula.2 w7Row "36045010100" w7Profile rfl⟩

/-- A service row whose under-18 count (2) exceeds its total (1). -/
def wBadRow : List Cell :=
  [{ raw := "1", asInt := some 1, asFloat := some 1 },
   { raw := "2", asInt := some 2, asFloat := some 2 },
   { raw := "0", asInt := some 0, asFloat := some 0 },
   { raw := "0", asInt := some 0, asFloat := some 0 },
   { raw := "0", asInt := some 0, asFloat := some 0 },
   { raw := "0", asInt := some 0, asFloat := some 0 },
   { raw := "", asInt := none, asFloat := none },
   { raw := "", asInt := none, asFloat := none },
   { raw := "36", asInt := some 36, asFloat := some 36 },
   { raw := "045", asInt := some 45, asFloat := some 45 },
   { raw := "010100", asInt := some 10100, asFloat := some 10100 }]

/-- The profile the fetcher builds from wBadRow. -/
def wBadProfile : DemoProfile :=
  { total_pop := 1,
    pct_under_18 := round1 (((2 : ℤ) : ℚ) / ((1 : ℤ) : ℚ) * 100),
    pct_senior := round1 (((0 : ℤ) : ℚ) / ((1 : ℤ) : ℚ) * 100),
    pct_white := round1 (((0 : ℤ) : ℚ) / ((1 : ℤ) : ℚ) * 100),
    pct_black := round1 (((0 : ℤ) : ℚ) / ((1 : ℤ) : ℚ) * 100),
    pct_hispanic := round1 (((0 : ℤ) : ℚ) / ((1 : ℤ) : ℚ) * 100),
    pct_uninsured := 0, pct_broadband := 0 }

/-- Counterexample to C5: the fetcher produces wBadProfile from wBadRow,
whose under-18 percentage 200 lies outside [0, 100]; the fetcher does not
clamp out-of-range source counts. -/
theorem C5_pct_out_of_range_counterexample :
    fetch_acs_demographics (some [[], wBadRow]) = [("36045010100", wBadProfile)] ∧
    wBadProfile.pct_under_18 = 200 ∧
    ¬ (wBadProfile.pct_under_18 ≤ 100) := by
  have h200 : wBadProfile.pct_under_18 = 200 := by
    show round1 (((2 : ℤ) : ℚ) / ((1 : ℤ) : ℚ) * 100) = 200
    have h : (((2 : ℤ) : ℚ) / ((1 : ℤ) : ℚ) * 100) = ((200 : ℤ) : ℚ) := by
      norm_num
    rw [h, round1_int]
    norm_num
  refine ⟨rfl, h200, ?_⟩
  rw [h200]
  norm_num

/-- Claim C5 as amended: every count-derived percentage of a produced
profile lies in [0, 100] provided each source count lies between 0 and
the row's total, and every pass-through rate field lies in [0, 100]
provided its source value does (an empty source value passes through
as 0). -/
theorem C5_amended_pct_in_range :
    ∀ (r : List Cell) (g : String) (p : DemoProfile),
      acsRowEntry r = Except.ok (some (g, p)) →
      (∀ i ∈ [1, 2, 3, 4, 5],
        0 ≤ intOrZeroD (pyIdx r i) ∧
          intOrZeroD (pyIdx r i) ≤ intOrZeroD (pyIdx r 0)) →
      (∀ i ∈ [6, 7], ∀ q : ℚ, (pyIdx r i).asFloat = some q → 0 ≤ q ∧ q ≤ 100) →
      (0 ≤ p.pct_under_18 ∧ p.pct_under_18 ≤ 100) ∧
      (0 ≤ p.pct_senior ∧ p.pct_senior ≤ 100) ∧
      (0 ≤ p.pct_white ∧ p.pct_white ≤ 100) ∧
      (0 ≤ p.pct_black ∧ p.pct_black ≤ 100) ∧
      (0 ≤ p.pct_hispanic ∧ p.pct_hispanic ≤ 100) ∧
      (0 ≤ p.pct_uninsured ∧ p.pct_uninsured ≤ 100) ∧
      (0 ≤ p.pct_broadband ∧ p.pct_broadband ≤ 100) := by
  intro r g p h hcnt hrate
  obtain ⟨-, h2, h3, h4, h5, h6, h7, h8, h9, h10⟩ := acsRowEntry_ok h
  have htot : p.total_pop = intOrZeroD (pyIdx r 0) := intOrZero_ok h2
  have hfield : ∀ i ∈ [1, 2, 3, 4, 5],
      0 ≤ round1 ((intOrZeroD (pyIdx r i) : ℚ) / (p.total_pop : ℚ) * 100) ∧
      round1 ((intOrZeroD (pyIdx r i) : ℚ) / (p.total_pop : ℚ) * 100) ≤ 100 := by
    intro i hi
    obtain ⟨ha, hb⟩ := hcnt i hi
    have hratio := pct_ratio_bounds ha (htot ▸ hb) h3
    exact round1_bounds hratio.1 hratio.2
  have hrate6 : 0 ≤ p.pct_uninsured ∧ p.pct_uninsured ≤ 100 := by
    rcases floatOrZero_ok h9 with h | h
    · rw [h]; norm_num
    · exact hrate 6 (by simp) _ h
  have hrate7 : 0 ≤ p.pct_broadband ∧ p.pct_broadband ≤ 100 := by
    rcases floatOrZero_ok h10 with h | h
    · rw [h]; norm_num
    · exact hrate 7 (by simp) _ h
  refine ⟨?_, ?_, ?_, ?_, ?_, hrate6, hrate7⟩
  · rw [h4]; exact hfield 1 (by simp)
  · rw [h5]; exact hfield 2 (by simp)
  · rw [h6]; exact hfield 3 (by simp)
  · rw [h7]; exact hfield 4 (by simp)
  · rw [h8]; exact hfield 5 (by simp)

/-- Witness for the amended C5: the retained row w7Row satisfies the
count and rate hypotheses and its profile percentages lie in [0, 100]. -/
theorem C5_amended_pct_in_range_witness :
    (0 ≤ w7Profile.pct_under_18 ∧ w7Profile.pct_under_18 ≤ 100) ∧
    (0 ≤ w7Profile.pct_senior ∧ w7Profile.pct_senior ≤ 100) ∧
    (0 ≤ w7Profile.pct_white ∧ w7Profile.pct_white ≤ 100) ∧
    (0 ≤ w7Profile.pct_black ∧ w7Profile.pct_black ≤ 100) ∧
    (0 ≤ w7Profile.pct_hispanic ∧ w7Profile.pct_hispanic ≤ 100) ∧
    (0 ≤ w7Profile.pct_uninsured ∧ w7Profile.pct_uninsured ≤ 100) ∧
    (0 ≤ w7Profile.pct_broadband ∧ w7Profile.pct_broadband ≤ 100) :=
  C5_amended_pct_in_range w7Row "36045010100" w7Profile rfl
    (by decide)
    (by
      intro i hi q hq
      have hi' : i = 6 ∨ i = 7 := by simpa using hi
      rcases hi' with rfl | rfl <;> simp [w7Row, pyIdx] at hq)

/-- Claim C8: the demographics mapping key is the concatenation of the
row's trailing state, county and tract fragments in that order, and is
therefore byte-identical to a geography identifier equal to that
concatenation. -/
theorem C8_key_is_fragment_concatenation :
    ∀ (pre : List Cell) (s c t : Cell),
      acsGeoid (pre ++ [s, c, t]) = s.raw ++ c.raw ++ t.raw ∧
      (∀ u : Tract, u.geoid = s.raw ++ c.raw ++ t.raw →
        acsGeoid (pre ++ [s, c, t]) = u.geoid) := by
  intro pre s c t
  have hlen : (pre ++ [s, c, t]).length = pre.length + 3 := by
    simp
  have hgeoid : acsGeoid (pre ++ [s, c, t]) = s.raw ++ c.raw ++ t.raw := by
    unfold acsGeoid pyIdxNeg
    rw [hlen]
    rw [show pre.length + 3 - 3 = pre.length + 0 by omega,
      show pre.length + 3 - 2 = pre.length + 1 by omega,
      show pre.length + 3 - 1 = pre.length + 2 by omega]
    rw [List.getD_append_right pre _ _ _ (by omega),
      List.getD_append_right pre _ _ _ (by omega),
      List.getD_append_right pre _ _ _ (by omega)]
    simp
  exact ⟨hgeoid, fun u hu => by rw [hgeoid, hu]⟩

/-- Witness for C8: concrete fragments "36", "045", "010100" concatenate
to the 11-character key "36045010100". -/
theorem C8_key_is_fragment_concatenation_witness :
    acsGeoid ([] ++ [{ raw := "36", asInt := none, asFloat := none },
                     { raw := "045", asInt := none, asFloat := none },
                     { raw := "010100", asInt := none, asFloat := none }])
      = "36" ++ "045" ++ "010100" ∧
    acsGeoid ([] ++ [{ raw := "36", asInt := none, asFloat := none },
                     { raw := "045", asInt := none, asFloat := none },
                     { raw := "010100", asInt := none, asFloat := none }])
      = ({ geoid := "36045010100", name := none, geometry := "g" } : Tract).geoid :=
  ⟨(C8_key_is_fragment_concatenation [] _ _ _).1,
   (C8_key_is_fragment_concatenation [] _ _ _).2
     { geoid := "36045010100", name := none, geometry := "g" } (by decide)⟩

/-- Witness for C10: the concrete rebuild stores distinct identifiers, and
duplicating its single feature makes the rebuild raise. -/
theorem C10_tract_id_primary_key_witness :
    (wStore.raw_tracts.map TractRow.tract_id).Nodup ∧
    ∃ e, run_etl (some [wGeoFeature, wGeoFeature]) none none wRng
        = Except.error e :=
  ⟨C10_tract_id_primary_key.1 (some [wGeoFeature]) none none wRng wStore wRun,
   C10_tract_id_primary_key.2 (some [wGeoFeature, wGeoFeature]) none none wRng
     (by decide)⟩
